import Mathlib

/-
Verification development for the bulldozer canary-rollout state machine
(internal/statemachine/compute.go). The Go data structures from the
google compute API are shallowly embedded as Lean structures, keeping the
exported field names; int64 arithmetic is modelled on Int with an explicit
two-complement wrap where the Go code performs arithmetic. Fallible code
returns Except; a Go nil-pointer dereference (which panics at runtime) is
modelled as a dedicated error constructor so that it is distinguishable
from the error values the code returns deliberately.
-/

set_option autoImplicit false

namespace Bulldozer

/-- Two-complement wrap of an unbounded integer into the int64 range,
used wherever the Go code performs int64 arithmetic. -/
def int64wrap (x : Int) : Int :=
  (x + 2 ^ 63) % 2 ^ 64 - 2 ^ 63

/-- RegionOrZone from compute.go: a pair of strings, the Go zero value
being the empty string. -/
structure RegionOrZone where
  Region : String
  Zone : String
  deriving DecidableEq

/-- Constructor Region from compute.go. -/
def Region (region : String) : RegionOrZone := { Region := region, Zone := "" }

/-- Constructor Zone from compute.go. -/
def Zone (zone : String) : RegionOrZone := { Region := "", Zone := zone }

/-- The error produced by the default branch of the location switch in
GetMIG, GetMIGInstances and PatchMIG: must specify either region or zone. -/
inductive LocationError where
  | mustSpecifyRegionOrZone
  deriving DecidableEq

/-- Which provider call a MIG operation dispatches to: the regional API or
the zonal API. -/
inductive MIGCall where
  | regional (region : String)
  | zonal (zone : String)
  deriving DecidableEq

/-- The location switch of googleComputeAPI.GetMIG: region case first,
then zone case, then the default error branch. The .ok value records
which network call would be performed. -/
def GetMIG_route (location : RegionOrZone) : Except LocationError MIGCall :=
  if location.Region ≠ "" then
    .ok (.regional location.Region)
  else if location.Zone ≠ "" then
    .ok (.zonal location.Zone)
  else
    .error .mustSpecifyRegionOrZone

/-- The location switch of googleComputeAPI.GetMIGInstances, identical in
structure to the one in GetMIG. -/
def GetMIGInstances_route (location : RegionOrZone) : Except LocationError MIGCall :=
  if location.Region ≠ "" then
    .ok (.regional location.Region)
  else if location.Zone ≠ "" then
    .ok (.zonal location.Zone)
  else
    .error .mustSpecifyRegionOrZone

/-- The location switch of googleComputeAPI.PatchMIG, identical in
structure to the one in GetMIG. -/
def PatchMIG_route (location : RegionOrZone) : Except LocationError MIGCall :=
  if location.Region ≠ "" then
    .ok (.regional location.Region)
  else if location.Zone ≠ "" then
    .ok (.zonal location.Zone)
  else
    .error .mustSpecifyRegionOrZone

/-- compute.FixedOrPercent; only the Fixed field is ever read or written
by this program. -/
structure FixedOrPercent where
  Fixed : Int
  deriving DecidableEq

/-- compute.InstanceGroupManagerVersion. TargetSize is a pointer in Go
and is therefore an Option here; the program itself builds versions with
a nil TargetSize (the primary slice and the collapsed final version). -/
structure InstanceGroupManagerVersion where
  Name : String
  InstanceTemplate : String
  TargetSize : Option FixedOrPercent
  deriving DecidableEq

/-- compute.DistributionPolicy; only the length of Zones is read. -/
structure DistributionPolicy where
  Zones : List String
  deriving DecidableEq

/-- compute.InstanceGroupManagerStatusVersionTarget. -/
structure InstanceGroupManagerVersionTarget where
  IsReached : Bool
  deriving DecidableEq

/-- compute.InstanceGroupManagerStatus. -/
structure InstanceGroupManagerStatus where
  IsStable : Bool
  VersionTarget : InstanceGroupManagerVersionTarget
  deriving DecidableEq

/-- compute.InstanceGroupManager, restricted to the fields this program
reads. DistributionPolicy is a pointer in Go, hence an Option. -/
structure InstanceGroupManager where
  SelfLink : String
  Versions : List InstanceGroupManagerVersion
  TargetSize : Int
  DistributionPolicy : Option DistributionPolicy
  Status : InstanceGroupManagerStatus
  deriving DecidableEq

/-- compute.InstanceTemplate, restricted to the SelfLink field. -/
structure InstanceTemplate where
  SelfLink : String
  deriving DecidableEq

/-- compute.Backend, restricted to the Group field. -/
structure Backend where
  Group : String
  deriving DecidableEq

/-- compute.BackendService, restricted to the fields this program reads. -/
structure BackendService where
  Name : String
  Region : String
  Backends : List Backend
  deriving DecidableEq

/-- compute.ManagedInstanceVersion, restricted to InstanceTemplate. -/
structure ManagedInstanceVersion where
  InstanceTemplate : String
  deriving DecidableEq

/-- compute.ManagedInstance: the instance identifier and its version. -/
structure ManagedInstance where
  Instance : String
  Version : ManagedInstanceVersion
  deriving DecidableEq

/-- compute.HealthStatus: the health state string and the instance it
refers to. -/
structure HealthStatus where
  HealthState : String
  Instance : String
  deriving DecidableEq

/-- clusterInfo from compute.go: the snapshot handed between loop
iterations. -/
structure ClusterInfo where
  group : InstanceGroupManager
  template : InstanceTemplate
  backend : BackendService
  deriving DecidableEq

/-- compute.InstanceGroupManagerUpdatePolicy as built by Runner.scale. -/
structure InstanceGroupManagerUpdatePolicy where
  Type_ : String
  MaxSurge : Option FixedOrPercent
  MaxUnavailable : Option FixedOrPercent
  deriving DecidableEq

/-- The partial InstanceGroupManager that Runner.scale sends to PatchMIG:
only Versions and UpdatePolicy are set. -/
structure Patch where
  Versions : List InstanceGroupManagerVersion
  UpdatePolicy : InstanceGroupManagerUpdatePolicy
  deriving DecidableEq

/-- The failure modes of Runner.scale. ambiguousPrimary and
missingPrimary are the errors the Go code returns; nilTargetSize and
nilDistributionPolicy model the nil-pointer dereferences the Go code
would hit (a runtime panic) on a version without a target size that runs
the target template, respectively on a group without a distribution
policy; patchFailed wraps an error from PatchMIG. -/
inductive ScaleError where
  | ambiguousPrimary (t1 t2 : String)
  | missingPrimary
  | nilTargetSize
  | nilDistributionPolicy
  | patchFailed (msg : String)
  deriving DecidableEq

/-- The version loop at the top of Runner.scale: threads the
primaryTemplate and oldCanarySize accumulators through the list of
versions, returning early with ambiguousPrimary on a second non-canary
version that does not run the target template. -/
def scanVersions (templateSelfLink : String) :
    List InstanceGroupManagerVersion → String → Int → Except ScaleError (String × Int)
  | [], primaryTemplate, oldCanarySize => .ok (primaryTemplate, oldCanarySize)
  | v :: rest, primaryTemplate, oldCanarySize =>
    if v.InstanceTemplate = templateSelfLink then
      match v.TargetSize with
      | none => .error .nilTargetSize
      | some ts =>
        if ts.Fixed > 0 then
          scanVersions templateSelfLink rest primaryTemplate ts.Fixed
        else
          scanVersions templateSelfLink rest primaryTemplate oldCanarySize
    else if v.Name ≠ "canary" then
      if primaryTemplate ≠ "" then
        .error (.ambiguousPrimary primaryTemplate v.InstanceTemplate)
      else
        scanVersions templateSelfLink rest v.InstanceTemplate oldCanarySize
    else
      scanVersions templateSelfLink rest primaryTemplate oldCanarySize

/-- newCanarySize as computed by Runner.scale: 1 if the old size is 0,
otherwise the int64 doubling of the old size. -/
def newCanary (oldCanarySize : Int) : Int :=
  if oldCanarySize = 0 then 1 else int64wrap (oldCanarySize * 2)

/-- The canary size after the clamp in Runner.scale: the total target
size when doubling meets or exceeds it, the doubled size otherwise. -/
def clampedCanary (oldCanarySize targetSize : Int) : Int :=
  if newCanary oldCanarySize ≥ targetSize then targetSize else newCanary oldCanarySize

/-- The tail of Runner.scale after the versions list has been chosen:
dereferences the distribution policy, computes maxSurge (raised to the
zone count when smaller) and maxUnavailable, and assembles the patch. -/
def finishScale (group : InstanceGroupManager)
    (oldCanarySize newCanarySize : Int)
    (versions : List InstanceGroupManagerVersion) : Except ScaleError Patch :=
  match group.DistributionPolicy with
  | none => .error .nilDistributionPolicy
  | some dp =>
    let maxSurge := int64wrap (newCanarySize - oldCanarySize)
    let maxSurge2 := if maxSurge < (dp.Zones.length : Int) then (dp.Zones.length : Int) else maxSurge
    .ok { Versions := versions,
          UpdatePolicy :=
            { Type_ := "PROACTIVE",
              MaxSurge := some { Fixed := maxSurge2 },
              MaxUnavailable := some { Fixed := 0 } } }

/-- Runner.scale as a function from the group snapshot and the target
template self link to the patch it sends, or the error it returns. -/
def scale (group : InstanceGroupManager) (templateSelfLink : String) :
    Except ScaleError Patch :=
  match scanVersions templateSelfLink group.Versions "" 0 with
  | .error e => .error e
  | .ok (primaryTemplate, oldCanarySize) =>
    if primaryTemplate = "" then
      .error .missingPrimary
    else if newCanary oldCanarySize ≥ group.TargetSize then
      finishScale group oldCanarySize group.TargetSize
        [{ Name := "", InstanceTemplate := templateSelfLink, TargetSize := none }]
    else
      finishScale group oldCanarySize (newCanary oldCanarySize)
        [{ Name := "", InstanceTemplate := primaryTemplate, TargetSize := none },
         { Name := "canary", InstanceTemplate := templateSelfLink,
           TargetSize := some { Fixed := newCanary oldCanarySize } }]

/-- Runner.scale together with its PatchMIG call: the second component
lists the patches actually issued to the fleet (empty when scale returned
before reaching PatchMIG). -/
def scaleRun (group : InstanceGroupManager) (templateSelfLink : String)
    (patchMIG : Patch → Except String Unit) : Except ScaleError Unit × List Patch :=
  match scale group templateSelfLink with
  | .error e => (.error e, [])
  | .ok patch =>
    match patchMIG patch with
    | .error msg => (.error (.patchFailed msg), [patch])
    | .ok _ => (.ok (), [patch])

/-- maxTicks from compute.go. -/
def maxTicks : Nat := 60

/-- The stability condition checked by Runner.waitUntilStable. -/
def stableReady (g : InstanceGroupManager) : Bool :=
  g.Status.IsStable && g.Status.VersionTarget.IsReached

/-- The timeout error of Runner.waitUntilStable. -/
inductive WaitError where
  | stabilityTimeout (ticks : Nat)
  deriving DecidableEq

/-- The loop of Runner.waitUntilStable: fetch is the sequence of GetMIG
results indexed by call number, fuel is the remaining tick budget, t the
number of fetches performed so far. Returns the result together with the
total number of fetches and of sleeps. -/
def waitAux (fetch : Nat → InstanceGroupManager) (info : ClusterInfo) :
    Nat → Nat → Except WaitError ClusterInfo × Nat × Nat
  | 0, t => (.error (.stabilityTimeout maxTicks), t, t)
  | fuel + 1, t =>
    let g := fetch t
    if stableReady g then
      (.ok { group := g, template := info.template, backend := info.backend }, t + 1, t)
    else
      waitAux fetch info fuel (t + 1)

/-- Runner.waitUntilStable: up to maxTicks fetches, sleeping after every
fetch that does not satisfy the stability condition. -/
def waitUntilStable (fetch : Nat → InstanceGroupManager) (info : ClusterInfo) :
    Except WaitError ClusterInfo × Nat × Nat :=
  waitAux fetch info maxTicks 0

/-- The error of Runner.checkBackendServiceHealth, carrying the name of
the unhealthy canary instance. -/
inductive HealthError where
  | unhealthyCanary (inst : String)
  deriving DecidableEq

/-- The isUnhealthy map built by Runner.checkBackendServiceHealth,
represented by the list of instance identifiers whose health state is
UNHEALTHY; only membership is ever queried. -/
def unhealthyInstances (healthStatus : List HealthStatus) : List String :=
  (healthStatus.filter (fun h => h.HealthState == "UNHEALTHY")).map (fun h => h.Instance)

/-- The instance loop of Runner.checkBackendServiceHealth: fails on the
first instance that runs the target template and is marked unhealthy. -/
def findUnhealthyCanary (templateSelfLink : String) (isUnhealthy : List String) :
    List ManagedInstance → Except HealthError Unit
  | [] => .ok ()
  | i :: rest =>
    if i.Version.InstanceTemplate = templateSelfLink ∧ isUnhealthy.contains i.Instance then
      .error (.unhealthyCanary i.Instance)
    else
      findUnhealthyCanary templateSelfLink isUnhealthy rest

/-- Runner.checkBackendServiceHealth, parameterized by the two successful
adapter results: the health status list and the instance listing. -/
def checkBackendServiceHealth (healthStatus : List HealthStatus)
    (instances : List ManagedInstance) (info : ClusterInfo) : Except HealthError Unit :=
  findUnhealthyCanary info.template.SelfLink (unhealthyInstances healthStatus) instances

/-- Runner.isDone: exactly one version and it runs the target template. -/
def isDone (info : ClusterInfo) : Bool :=
  info.group.Versions.length == 1 &&
    (info.group.Versions.headD { Name := "", InstanceTemplate := "", TargetSize := none
     }).InstanceTemplate == info.template.SelfLink

/-- The failure modes of googleComputeAPI.FindBackendServiceWithMIG:
notFound is the error returned when the accumulator is still nil after
the listing; nilBackendService models the nil-pointer dereference (a
runtime panic) the inner loop performs when it reads the Backends field
of the still-nil backendService accumulator. -/
inductive FindBSError where
  | nilBackendService
  | notFound
  deriving DecidableEq

/-- The backend search loop of FindBackendServiceWithMIG inside the inner
candidate loop: the Go code iterates over the Backends of the
backendService accumulator, not of the candidate. -/
def backendMatches (migSelfLink : String) (backends : List Backend) : Bool :=
  backends.any (fun b => b.Group == migSelfLink)

/-- The candidate loop of FindBackendServiceWithMIG over one scoped list.
The Boolean in the result records whether the callback returned early
after assigning the candidate to the accumulator. Reading the Backends
field of a nil accumulator is the modelled nil dereference. -/
def findBSScopedList (migSelfLink : String) (acc : Option BackendService) :
    List BackendService → Except FindBSError (Option BackendService × Bool)
  | [] => .ok (acc, false)
  | candidate :: rest =>
    match acc with
    | none => .error .nilBackendService
    | some current =>
      if backendMatches migSelfLink current.Backends then
        .ok (some candidate, true)
      else
        findBSScopedList migSelfLink acc rest

/-- The outer loop of FindBackendServiceWithMIG over the entries of the
aggregate list. -/
def findBSItems (migSelfLink : String) (acc : Option BackendService) :
    List (List BackendService) → Except FindBSError (Option BackendService)
  | [] => .ok acc
  | l :: rest =>
    match findBSScopedList migSelfLink acc l with
    | .error e => .error e
    | .ok (acc2, true) => .ok acc2
    | .ok (acc2, false) => findBSItems migSelfLink acc2 rest

/-- googleComputeAPI.FindBackendServiceWithMIG: items is the aggregated
listing of backend services, grouped by scope. -/
def FindBackendServiceWithMIG (items : List (List BackendService))
    (migSelfLink : String) : Except FindBSError BackendService :=
  match findBSItems migSelfLink none items with
  | .error e => .error e
  | .ok none => .error .notFound
  | .ok (some bs) => .ok bs

/-- A version is a primary candidate when it does not run the target
template and is not tagged canary: exactly the versions that the scan
loop considers for primaryTemplate. -/
def isPrimaryCandidate (templateSelfLink : String) (v : InstanceGroupManagerVersion) : Bool :=
  v.InstanceTemplate != templateSelfLink && v.Name != "canary"

/-- A version runs the target template. -/
def runsTemplate (templateSelfLink : String) (v : InstanceGroupManagerVersion) : Bool :=
  v.InstanceTemplate == templateSelfLink

/-- Every version running the target template has a non-nil target size,
so the scan loop performs no nil dereference. -/
def noNilTargetSize (templateSelfLink : String)
    (versions : List InstanceGroupManagerVersion) : Prop :=
  ∀ v ∈ versions, v.InstanceTemplate = templateSelfLink → v.TargetSize.isSome

/-- The oldCanarySize accumulation of the scan loop, as a fold: the last
version running the target template with a positive fixed size wins. -/
def oldFold (templateSelfLink : String)
    (versions : List InstanceGroupManagerVersion) (a : Int) : Int :=
  versions.foldl
    (fun acc v =>
      if v.InstanceTemplate = templateSelfLink then
        match v.TargetSize with
        | some ts => if ts.Fixed > 0 then ts.Fixed else acc
        | none => acc
      else acc) a

/-! Basic lemmas about the embedded definitions. -/

theorem int64wrap_eq_self (x : Int) (h1 : -(2 ^ 63) ≤ x) (h2 : x < 2 ^ 63) :
    int64wrap x = x := by
  unfold int64wrap
  have h3 : 0 ≤ x + 2 ^ 63 := by omega
  have h4 : x + 2 ^ 63 < 2 ^ 64 := by omega
  rw [Int.emod_eq_of_lt h3 h4]
  omega

theorem if_lt_max (a b : Int) : (if a < b then b else a) = max a b := by
  rcases le_or_lt b a with h | h
  · rw [if_neg (not_lt.mpr h), max_eq_left h]
  · rw [if_pos h, max_eq_right (le_of_lt h)]

theorem isPrimaryCandidate_iff (tpl : String) (v : InstanceGroupManagerVersion) :
    isPrimaryCandidate tpl v = true ↔ v.InstanceTemplate ≠ tpl ∧ v.Name ≠ "canary" := by
  simp [isPrimaryCandidate]

theorem runsTemplate_iff (tpl : String) (v : InstanceGroupManagerVersion) :
    runsTemplate tpl v = true ↔ v.InstanceTemplate = tpl := by
  simp [runsTemplate]

theorem noNilTargetSize_cons (tpl : String) (v : InstanceGroupManagerVersion)
    (vs : List InstanceGroupManagerVersion) (h : noNilTargetSize tpl (v :: vs)) :
    noNilTargetSize tpl vs :=
  fun w hw => h w (List.mem_cons_of_mem _ hw)

theorem oldFold_cons (tpl : String) (v : InstanceGroupManagerVersion)
    (vs : List InstanceGroupManagerVersion) (a : Int) :
    oldFold tpl (v :: vs) a =
      oldFold tpl vs
        (if v.InstanceTemplate = tpl then
          match v.TargetSize with
          | some ts => if ts.Fixed > 0 then ts.Fixed else a
          | none => a
        else a) := by
  simp [oldFold]

/-- When no version runs the target template, the size accumulator is
untouched. -/
theorem oldFold_no_target (tpl : String) :
    ∀ (vs : List InstanceGroupManagerVersion) (a : Int),
      vs.filter (runsTemplate tpl) = [] → oldFold tpl vs a = a := by
  intro vs
  induction vs with
  | nil => intro a _; simp [oldFold]
  | cons v rest ih =>
    intro a hfil
    rw [List.filter_cons] at hfil
    by_cases hv : v.InstanceTemplate = tpl
    · simp [runsTemplate, hv] at hfil
    · have : runsTemplate tpl v = false := by simp [runsTemplate, hv]
      rw [this] at hfil
      simp at hfil
      rw [oldFold_cons, if_neg hv]
      exact ih a (by simpa using hfil)

/-- When exactly one version runs the target template, the size
accumulator ends at its fixed size if positive, else unchanged. -/
theorem oldFold_single_target (tpl : String) (c : InstanceGroupManagerVersion)
    (ts : FixedOrPercent) :
    ∀ (vs : List InstanceGroupManagerVersion) (a : Int),
      vs.filter (runsTemplate tpl) = [c] → c.TargetSize = some ts →
      oldFold tpl vs a = if ts.Fixed > 0 then ts.Fixed else a := by
  intro vs
  induction vs with
  | nil => intro a hfil; simp at hfil
  | cons v rest ih =>
    intro a hfil hts
    rw [List.filter_cons] at hfil
    by_cases hv : v.InstanceTemplate = tpl
    · have hr : runsTemplate tpl v = true := by simp [runsTemplate, hv]
      rw [hr] at hfil
      simp at hfil
      obtain ⟨hvc, hrest⟩ := hfil
      subst hvc
      rw [oldFold_cons, if_pos hv, hts]
      rw [oldFold_no_target tpl rest _ (by simpa using hrest)]
    · have hr : runsTemplate tpl v = false := by simp [runsTemplate, hv]
      rw [hr] at hfil
      simp at hfil
      rw [oldFold_cons, if_neg hv]
      exact ih a hfil hts

/-- The scan loop with no primary candidate left returns the accumulated
primary and the folded size. -/
theorem scan_no_cand (tpl : String) :
    ∀ (vs : List InstanceGroupManagerVersion) (acc : String) (old : Int),
      noNilTargetSize tpl vs → vs.filter (isPrimaryCandidate tpl) = [] →
      scanVersions tpl vs acc old = .ok (acc, oldFold tpl vs old) := by
  intro vs
  induction vs with
  | nil => intro acc old _ _; simp [scanVersions, oldFold]
  | cons v rest ih =>
    intro acc old hnil hfil
    have hnr := noNilTargetSize_cons tpl v rest hnil
    rw [List.filter_cons] at hfil
    by_cases hv : v.InstanceTemplate = tpl
    · have hs := hnil v (List.mem_cons_self v rest) hv
      cases hts : v.TargetSize with
      | none => rw [hts] at hs; simp at hs
      | some ts =>
        rw [oldFold_cons, if_pos hv, hts]
        simp only [scanVersions, if_pos hv, hts]
        by_cases hfix : ts.Fixed > 0
        · rw [if_pos hfix, if_pos hfix]
          have hfil2 : rest.filter (isPrimaryCandidate tpl) = [] := by
            have : isPrimaryCandidate tpl v = false := by
              simp [isPrimaryCandidate, hv]
            rw [this] at hfil
            simpa using hfil
          exact ih acc ts.Fixed hnr hfil2
        · rw [if_neg hfix, if_neg hfix]
          have hfil2 : rest.filter (isPrimaryCandidate tpl) = [] := by
            have : isPrimaryCandidate tpl v = false := by
              simp [isPrimaryCandidate, hv]
            rw [this] at hfil
            simpa using hfil
          exact ih acc old hnr hfil2
    · by_cases hn : v.Name = "canary"
      · have hc : isPrimaryCandidate tpl v = false := by
          simp [isPrimaryCandidate, hn]
        rw [hc] at hfil
        simp at hfil
        rw [oldFold_cons, if_neg hv]
        simp only [scanVersions, if_neg hv, hn]
        simpa using ih acc old hnr (by simpa using hfil)
      · have hc : isPrimaryCandidate tpl v = true := by
          simp [isPrimaryCandidate, hv, hn]
        rw [hc] at hfil
        simp at hfil

/-- The scan loop with exactly one primary candidate and an empty
accumulator returns the template of that candidate and the folded size. -/
theorem scan_one_cand (tpl : String) (p : InstanceGroupManagerVersion) :
    ∀ (vs : List InstanceGroupManagerVersion) (old : Int),
      noNilTargetSize tpl vs → vs.filter (isPrimaryCandidate tpl) = [p] →
      p.InstanceTemplate ≠ "" →
      scanVersions tpl vs "" old = .ok (p.InstanceTemplate, oldFold tpl vs old) := by
  intro vs
  induction vs with
  | nil => intro old _ hfil; simp at hfil
  | cons v rest ih =>
    intro old hnil hfil hp
    have hnr := noNilTargetSize_cons tpl v rest hnil
    rw [List.filter_cons] at hfil
    by_cases hv : v.InstanceTemplate = tpl
    · have hs := hnil v (List.mem_cons_self v rest) hv
      cases hts : v.TargetSize with
      | none => rw [hts] at hs; simp at hs
      | some ts =>
        have hc : isPrimaryCandidate tpl v = false := by
          simp [isPrimaryCandidate, hv]
        rw [hc] at hfil
        simp at hfil
        rw [oldFold_cons, if_pos hv, hts]
        simp only [scanVersions, if_pos hv, hts]
        by_cases hfix : ts.Fixed > 0
        · rw [if_pos hfix, if_pos hfix]
          exact ih ts.Fixed hnr (by simpa using hfil) hp
        · rw [if_neg hfix, if_neg hfix]
          exact ih old hnr (by simpa using hfil) hp
    · by_cases hn : v.Name = "canary"
      · have hc : isPrimaryCandidate tpl v = false := by
          simp [isPrimaryCandidate, hn]
        rw [hc] at hfil
        simp at hfil
        rw [oldFold_cons, if_neg hv]
        simp only [scanVersions, if_neg hv, hn]
        simpa using ih old hnr (by simpa using hfil) hp
      · have hc : isPrimaryCandidate tpl v = true := by
          simp [isPrimaryCandidate, hv, hn]
        rw [hc] at hfil
        simp at hfil
        obtain ⟨hvp, hrest⟩ := hfil
        subst hvp
        rw [oldFold_cons, if_neg hv]
        simp only [scanVersions, if_neg hv]
        rw [if_pos (show v.Name ≠ "canary" from hn),
          if_neg (show ¬("" : String) ≠ "" by simp)]
        exact scan_no_cand tpl rest v.InstanceTemplate old hnr (by simpa using hrest)

/-- Once the primary accumulator is non-empty, any further primary
candidate makes the scan loop fail with the ambiguous-primary error. -/
theorem scan_ambiguous (tpl : String) :
    ∀ (vs : List InstanceGroupManagerVersion) (acc : String) (old : Int),
      noNilTargetSize tpl vs → acc ≠ "" →
      vs.filter (isPrimaryCandidate tpl) ≠ [] →
      ∃ a b, scanVersions tpl vs acc old = .error (.ambiguousPrimary a b) := by
  intro vs
  induction vs with
  | nil => intro acc old _ _ hfil; simp at hfil
  | cons v rest ih =>
    intro acc old hnil hacc hfil
    have hnr := noNilTargetSize_cons tpl v rest hnil
    rw [List.filter_cons] at hfil
    by_cases hv : v.InstanceTemplate = tpl
    · have hs := hnil v (List.mem_cons_self v rest) hv
      cases hts : v.TargetSize with
      | none => rw [hts] at hs; simp at hs
      | some ts =>
        have hc : isPrimaryCandidate tpl v = false := by
          simp [isPrimaryCandidate, hv]
        rw [hc] at hfil
        simp only [Bool.false_eq_true, if_false] at hfil
        by_cases hfix : ts.Fixed > 0
        · obtain ⟨a, b, hab⟩ := ih acc ts.Fixed hnr hacc hfil
          refine ⟨a, b, ?_⟩
          simp only [scanVersions, if_pos hv, hts]
          rw [if_pos hfix]
          exact hab
        · obtain ⟨a, b, hab⟩ := ih acc old hnr hacc hfil
          refine ⟨a, b, ?_⟩
          simp only [scanVersions, if_pos hv, hts]
          rw [if_neg hfix]
          exact hab
    · by_cases hn : v.Name = "canary"
      · have hc : isPrimaryCandidate tpl v = false := by
          simp [isPrimaryCandidate, hn]
        rw [hc] at hfil
        simp only [Bool.false_eq_true, if_false] at hfil
        obtain ⟨a, b, hab⟩ := ih acc old hnr hacc hfil
        refine ⟨a, b, ?_⟩
        simp only [scanVersions, if_neg hv]
        rw [if_neg (show ¬v.Name ≠ "canary" by simpa using hn)]
        exact hab
      · refine ⟨acc, v.InstanceTemplate, ?_⟩
        simp only [scanVersions, if_neg hv]
        rw [if_pos (show v.Name ≠ "canary" from hn), if_pos hacc]

/-- Every successful scan result size is either the initial accumulator
or the positive fixed size of some version in the list. -/
theorem scan_old_mem (tpl : String) :
    ∀ (vs : List InstanceGroupManagerVersion) (acc : String) (a : Int)
      (p : String) (b : Int),
      scanVersions tpl vs acc a = .ok (p, b) →
      b = a ∨ ∃ v ∈ vs, ∃ ts, v.TargetSize = some ts ∧ ts.Fixed > 0 ∧ b = ts.Fixed := by
  intro vs
  induction vs with
  | nil =>
    intro acc a p b h
    simp [scanVersions] at h
    exact Or.inl h.2.symm
  | cons v rest ih =>
    intro acc a p b h
    by_cases hv : v.InstanceTemplate = tpl
    · cases hts : v.TargetSize with
      | none => simp [scanVersions, if_pos hv, hts] at h
      | some ts =>
        simp only [scanVersions, if_pos hv, hts] at h
        by_cases hfix : ts.Fixed > 0
        · rw [if_pos hfix] at h
          rcases ih acc ts.Fixed p b h with h1 | ⟨w, hw, ts2, h2⟩
          · exact Or.inr ⟨v, List.mem_cons_self v rest, ts, hts, hfix, h1⟩
          · exact Or.inr ⟨w, List.mem_cons_of_mem _ hw, ts2, h2⟩
        · rw [if_neg hfix] at h
          rcases ih acc a p b h with h1 | ⟨w, hw, ts2, h2⟩
          · exact Or.inl h1
          · exact Or.inr ⟨w, List.mem_cons_of_mem _ hw, ts2, h2⟩
    · simp only [scanVersions, if_neg hv] at h
      by_cases hn : v.Name = "canary"
      · rw [if_neg (by simpa using hn)] at h
        rcases ih acc a p b h with h1 | ⟨w, hw, ts2, h2⟩
        · exact Or.inl h1
        · exact Or.inr ⟨w, List.mem_cons_of_mem _ hw, ts2, h2⟩
      · rw [if_pos (by simpa using hn)] at h
        by_cases hacc : acc = ""
        · rw [if_neg (by simpa using hacc)] at h
          rcases ih v.InstanceTemplate a p b h with h1 | ⟨w, hw, ts2, h2⟩
          · exact Or.inl h1
          · exact Or.inr ⟨w, List.mem_cons_of_mem _ hw, ts2, h2⟩
        · rw [if_pos hacc] at h
          simp at h

/-- A version tagged canary that runs some other template is skipped by
the scan loop, so removing all such versions does not change the scan. -/
theorem scan_skip_mismatched (tpl : String) :
    ∀ (vs : List InstanceGroupManagerVersion) (acc : String) (old : Int),
      scanVersions tpl vs acc old =
        scanVersions tpl
          (vs.filter (fun v => !(v.Name == "canary" && v.InstanceTemplate != tpl)))
          acc old := by
  intro vs
  induction vs with
  | nil => intro acc old; rfl
  | cons v rest ih =>
    intro acc old
    rw [List.filter_cons]
    by_cases hv : v.InstanceTemplate = tpl
    · have hk : (!(v.Name == "canary" && v.InstanceTemplate != tpl)) = true := by
        simp [hv]
      rw [hk, if_pos rfl]
      cases hts : v.TargetSize with
      | none => simp only [scanVersions, if_pos hv, hts]
      | some ts =>
        simp only [scanVersions, if_pos hv, hts]
        by_cases hfix : ts.Fixed > 0
        · rw [if_pos hfix, if_pos hfix]; exact ih acc ts.Fixed
        · rw [if_neg hfix, if_neg hfix]; exact ih acc old
    · by_cases hn : v.Name = "canary"
      · have hk : (!(v.Name == "canary" && v.InstanceTemplate != tpl)) = false := by
          simp [hn, hv]
        rw [hk]
        simp only [Bool.false_eq_true, if_false]
        simp only [scanVersions, if_neg hv]
        rw [if_neg (show ¬v.Name ≠ "canary" by simpa using hn)]
        exact ih acc old
      · have hk : (!(v.Name == "canary" && v.InstanceTemplate != tpl)) = true := by
          simp [hn]
        rw [hk, if_pos rfl]
        simp only [scanVersions, if_neg hv]
        rw [if_pos (show v.Name ≠ "canary" from hn), if_pos (show v.Name ≠ "canary" from hn)]
        by_cases hacc : acc ≠ ""
        · rw [if_pos hacc, if_pos hacc]
        · rw [if_neg hacc, if_neg hacc]; exact ih v.InstanceTemplate old

/-- When no version running the target template has a positive fixed
size, the scan loop never changes its size accumulator. -/
theorem scan_old_const (tpl : String) :
    ∀ (vs : List InstanceGroupManagerVersion) (acc : String) (a : Int)
      (p : String) (b : Int),
      (∀ v ∈ vs, v.InstanceTemplate = tpl →
        ∃ ts, v.TargetSize = some ts ∧ ¬ts.Fixed > 0) →
      scanVersions tpl vs acc a = .ok (p, b) → b = a := by
  intro vs
  induction vs with
  | nil =>
    intro acc a p b _ h
    simp [scanVersions] at h
    exact h.2.symm
  | cons v rest ih =>
    intro acc a p b hno h
    have hnr : ∀ v ∈ rest, v.InstanceTemplate = tpl →
        ∃ ts, v.TargetSize = some ts ∧ ¬ts.Fixed > 0 :=
      fun w hw => hno w (List.mem_cons_of_mem _ hw)
    by_cases hv : v.InstanceTemplate = tpl
    · obtain ⟨ts, hts, hfix⟩ := hno v (List.mem_cons_self v rest) hv
      simp only [scanVersions, if_pos hv, hts] at h
      rw [if_neg hfix] at h
      exact ih acc a p b hnr h
    · simp only [scanVersions, if_neg hv] at h
      by_cases hn : v.Name = "canary"
      · rw [if_neg (show ¬v.Name ≠ "canary" by simpa using hn)] at h
        exact ih acc a p b hnr h
      · rw [if_pos (show v.Name ≠ "canary" from hn)] at h
        by_cases hacc : acc ≠ ""
        · rw [if_pos hacc] at h; simp at h
        · rw [if_neg hacc] at h
          exact ih v.InstanceTemplate a p b hnr h

/-- finishScale on a group with a distribution policy: the surge is the
max of the wrapped size difference and the zone count. -/
theorem finishScale_char (g : InstanceGroupManager) (dp : DistributionPolicy)
    (old new : Int) (vs : List InstanceGroupManagerVersion)
    (hdp : g.DistributionPolicy = some dp) :
    finishScale g old new vs =
      .ok { Versions := vs,
            UpdatePolicy :=
              { Type_ := "PROACTIVE",
                MaxSurge := some { Fixed := max (int64wrap (new - old)) (dp.Zones.length : Int) },
                MaxUnavailable := some { Fixed := 0 } } } := by
  simp only [finishScale, hdp]
  rw [if_lt_max]

/-- Full characterization of Runner.scale on a snapshot with exactly one
primary candidate, no nil target size on the canary slice, and a
distribution policy. -/
theorem scale_char (g : InstanceGroupManager) (tpl : String)
    (p : InstanceGroupManagerVersion) (dp : DistributionPolicy)
    (hf : g.Versions.filter (isPrimaryCandidate tpl) = [p])
    (hp : p.InstanceTemplate ≠ "")
    (hnil : noNilTargetSize tpl g.Versions)
    (hdp : g.DistributionPolicy = some dp) :
    scale g tpl =
      if newCanary (oldFold tpl g.Versions 0) ≥ g.TargetSize then
        .ok { Versions := [{ Name := "", InstanceTemplate := tpl, TargetSize := none }],
              UpdatePolicy :=
                { Type_ := "PROACTIVE",
                  MaxSurge := some { Fixed := max (int64wrap (g.TargetSize - oldFold tpl g.Versions 0)) (dp.Zones.length : Int) },
                  MaxUnavailable := some { Fixed := 0 } } }
      else
        .ok { Versions :=
                [{ Name := "", InstanceTemplate := p.InstanceTemplate, TargetSize := none },
                 { Name := "canary", InstanceTemplate := tpl,
                   TargetSize := some { Fixed := newCanary (oldFold tpl g.Versions 0) } }],
              UpdatePolicy :=
                { Type_ := "PROACTIVE",
                  MaxSurge := some { Fixed := max (int64wrap (newCanary (oldFold tpl g.Versions 0) - oldFold tpl g.Versions 0)) (dp.Zones.length : Int) },
                  MaxUnavailable := some { Fixed := 0 } } } := by
  simp only [scale, scan_one_cand tpl p g.Versions 0 hnil hf hp]
  rw [if_neg (show ¬p.InstanceTemplate = "" from hp)]
  by_cases hge : newCanary (oldFold tpl g.Versions 0) ≥ g.TargetSize
  · rw [if_pos hge, if_pos hge, finishScale_char g dp _ _ _ hdp]
  · rw [if_neg hge, if_neg hge, finishScale_char g dp _ _ _ hdp]

/-- The group evolving across successive scale invocations, assuming the
fleet realizes each patch exactly: the patched versions replace the
current versions, every other field is unchanged. A failing scale leaves
the group as is (this branch is unreachable under the hypotheses used
below). -/
def rolloutGroups (g : InstanceGroupManager) (tpl : String) : Nat → InstanceGroupManager
  | 0 => g
  | k + 1 =>
    match scale (rolloutGroups g tpl k) tpl with
    | .ok patch => { rolloutGroups g tpl k with Versions := patch.Versions }
    | .error _ => rolloutGroups g tpl k

theorem rolloutGroups_const (g : InstanceGroupManager) (tpl : String) :
    ∀ k, (rolloutGroups g tpl k).TargetSize = g.TargetSize ∧
      (rolloutGroups g tpl k).DistributionPolicy = g.DistributionPolicy := by
  intro k
  induction k with
  | zero => exact ⟨rfl, rfl⟩
  | succ k ih =>
    simp only [rolloutGroups]
    cases scale (rolloutGroups g tpl k) tpl with
    | ok patch => simpa using ih
    | error e => simpa using ih

theorem newCanary_zero : newCanary 0 = 1 := by simp [newCanary]

theorem newCanary_pos (s : Int) (h0 : 0 < s) (h : s < 2 ^ 62) :
    newCanary s = 2 * s := by
  unfold newCanary
  rw [if_neg (by omega)]
  rw [int64wrap_eq_self _ (by omega) (by omega)]
  omega

theorem shape_facts_single (tpl ptpl : String) (hp2 : ptpl ≠ tpl) :
    ([{ Name := "", InstanceTemplate := ptpl, TargetSize := none }] :
        List InstanceGroupManagerVersion).filter (isPrimaryCandidate tpl) =
      [{ Name := "", InstanceTemplate := ptpl, TargetSize := none }] ∧
    noNilTargetSize tpl
      [{ Name := "", InstanceTemplate := ptpl, TargetSize := none }] ∧
    oldFold tpl [{ Name := "", InstanceTemplate := ptpl, TargetSize := none }] 0 = 0 := by
  refine ⟨?_, ?_, ?_⟩
  · simp [isPrimaryCandidate, hp2]
  · intro v hv htv
    simp at hv
    subst hv
    simp at htv
    exact absurd htv hp2
  · simp [oldFold, hp2]

theorem shape_facts_pair (tpl ptpl : String) (s : Int) (hp2 : ptpl ≠ tpl) (hs : 0 < s) :
    ([{ Name := "", InstanceTemplate := ptpl, TargetSize := none },
      { Name := "canary", InstanceTemplate := tpl, TargetSize := some { Fixed := s } }] :
        List InstanceGroupManagerVersion).filter (isPrimaryCandidate tpl) =
      [{ Name := "", InstanceTemplate := ptpl, TargetSize := none }] ∧
    noNilTargetSize tpl
      [{ Name := "", InstanceTemplate := ptpl, TargetSize := none },
       { Name := "canary", InstanceTemplate := tpl, TargetSize := some { Fixed := s } }] ∧
    oldFold tpl
      [{ Name := "", InstanceTemplate := ptpl, TargetSize := none },
       { Name := "canary", InstanceTemplate := tpl, TargetSize := some { Fixed := s } }] 0 = s := by
  refine ⟨?_, ?_, ?_⟩
  · simp [isPrimaryCandidate, hp2]
  · intro v hv htv
    simp at hv
    rcases hv with hv | hv <;> subst hv
    · simp at htv; exact absurd htv hp2
    · simp
  · simp [oldFold, hp2, hs]

/-- From a fresh snapshot with a single primary version, k successful
scale invocations leave the fleet with a canary slice of size 2 ^ (k-1),
as long as the doubling has not yet reached the total target size. -/
theorem rollout_shape (tpl ptpl : String) (N : Int) (dp : DistributionPolicy)
    (g0 : InstanceGroupManager)
    (hp1 : ptpl ≠ "") (hp2 : ptpl ≠ tpl) (hN : N < 2 ^ 62)
    (hv0 : g0.Versions = [{ Name := "", InstanceTemplate := ptpl, TargetSize := none }])
    (hts : g0.TargetSize = N) (hdp : g0.DistributionPolicy = some dp) :
    ∀ k, (∀ j, j < k → (2 : Int) ^ j < N) →
      (rolloutGroups g0 tpl k).Versions =
        match k with
        | 0 => [{ Name := "", InstanceTemplate := ptpl, TargetSize := none }]
        | j + 1 => [{ Name := "", InstanceTemplate := ptpl, TargetSize := none },
                    { Name := "canary", InstanceTemplate := tpl,
                      TargetSize := some { Fixed := (2 : Int) ^ j } }] := by
  intro k
  induction k with
  | zero => intro _; exact hv0
  | succ k ih =>
    intro hj
    have hjk : ∀ j, j < k → (2 : Int) ^ j < N := fun j h => hj j (Nat.lt_succ_of_lt h)
    have hsh := ih hjk
    have hconst := rolloutGroups_const g0 tpl k
    have htsk : (rolloutGroups g0 tpl k).TargetSize = N := hconst.1.trans hts
    have hdpk : (rolloutGroups g0 tpl k).DistributionPolicy = some dp := hconst.2.trans hdp
    have h2k : (2 : Int) ^ k < N := hj k (Nat.lt_succ_self k)
    cases k with
    | zero =>
      obtain ⟨hfil, hnil, hold⟩ := shape_facts_single tpl ptpl hp2
      have hchar := scale_char (rolloutGroups g0 tpl 0) tpl
        { Name := "", InstanceTemplate := ptpl, TargetSize := none } dp
        (by rw [hsh]; exact hfil) hp1 (by rw [hsh]; exact hnil) hdpk
      rw [hsh] at hchar
      rw [hold, newCanary_zero, htsk] at hchar
      rw [if_neg (by simp only [pow_zero] at h2k; omega)] at hchar
      have hstep : rolloutGroups g0 tpl 1 =
          match scale (rolloutGroups g0 tpl 0) tpl with
          | .ok patch => { rolloutGroups g0 tpl 0 with Versions := patch.Versions }
          | .error _ => rolloutGroups g0 tpl 0 := rfl
      rw [hstep, hchar]
      simp [pow_zero]
    | succ j =>
      have hspos : (0 : Int) < 2 ^ j := pow_pos (by norm_num) j
      have hsbound : (2 : Int) ^ j < 2 ^ 62 := lt_trans (hjk j (Nat.lt_succ_self j)) hN
      obtain ⟨hfil, hnil, hold⟩ := shape_facts_pair tpl ptpl ((2 : Int) ^ j) hp2 hspos
      have hchar := scale_char (rolloutGroups g0 tpl (j + 1)) tpl
        { Name := "", InstanceTemplate := ptpl, TargetSize := none } dp
        (by rw [hsh]; exact hfil) hp1 (by rw [hsh]; exact hnil) hdpk
      rw [hsh] at hchar
      rw [hold, newCanary_pos _ hspos hsbound, htsk] at hchar
      have h2succ : (2 : Int) * 2 ^ j = 2 ^ (j + 1) := by
        rw [pow_succ]; ring
      rw [h2succ] at hchar
      rw [if_neg (by omega)] at hchar
      have hstep : rolloutGroups g0 tpl (j + 1 + 1) =
          match scale (rolloutGroups g0 tpl (j + 1)) tpl with
          | .ok patch => { rolloutGroups g0 tpl (j + 1) with Versions := patch.Versions }
          | .error _ => rolloutGroups g0 tpl (j + 1) := rfl
      rw [hstep, hchar]

/-- The invocation after k successful ones: a two-version patch with
canary size 2 ^ k while doubling stays below the target, the collapse
patch (with the size clamped to the target) as soon as it reaches it. -/
theorem rollout_scale (tpl ptpl : String) (N : Int) (dp : DistributionPolicy)
    (g0 : InstanceGroupManager)
    (hp1 : ptpl ≠ "") (hp2 : ptpl ≠ tpl) (hN : N < 2 ^ 62)
    (hv0 : g0.Versions = [{ Name := "", InstanceTemplate := ptpl, TargetSize := none }])
    (hts : g0.TargetSize = N) (hdp : g0.DistributionPolicy = some dp)
    (k : Nat) (hk : ∀ j, j < k → (2 : Int) ^ j < N) :
    ((2 : Int) ^ k < N →
      ∃ up, scale (rolloutGroups g0 tpl k) tpl =
        .ok { Versions :=
                [{ Name := "", InstanceTemplate := ptpl, TargetSize := none },
                 { Name := "canary", InstanceTemplate := tpl,
                   TargetSize := some { Fixed := (2 : Int) ^ k } }],
              UpdatePolicy := up }) ∧
    ((2 : Int) ^ k ≥ N →
      (∃ up, scale (rolloutGroups g0 tpl k) tpl =
        .ok { Versions := [{ Name := "", InstanceTemplate := tpl, TargetSize := none }],
              UpdatePolicy := up }) ∧
      clampedCanary (oldFold tpl (rolloutGroups g0 tpl k).Versions 0) N = N) := by
  have hsh := rollout_shape tpl ptpl N dp g0 hp1 hp2 hN hv0 hts hdp k hk
  have hconst := rolloutGroups_const g0 tpl k
  have htsk : (rolloutGroups g0 tpl k).TargetSize = N := hconst.1.trans hts
  have hdpk : (rolloutGroups g0 tpl k).DistributionPolicy = some dp := hconst.2.trans hdp
  cases k with
  | zero =>
    obtain ⟨hfil, hnil, hold⟩ := shape_facts_single tpl ptpl hp2
    have hchar := scale_char (rolloutGroups g0 tpl 0) tpl
      { Name := "", InstanceTemplate := ptpl, TargetSize := none } dp
      (by rw [hsh]; exact hfil) hp1 (by rw [hsh]; exact hnil) hdpk
    rw [hsh] at hchar
    rw [hold, newCanary_zero, htsk] at hchar
    constructor
    · intro hlt
      rw [pow_zero] at hlt
      rw [if_neg (by omega)] at hchar
      dsimp only at hchar
      simp only [pow_zero]
      exact ⟨_, hchar⟩
    · intro hge
      rw [pow_zero] at hge
      rw [if_pos hge] at hchar
      refine ⟨⟨_, hchar⟩, ?_⟩
      rw [hsh, hold]
      unfold clampedCanary
      rw [newCanary_zero, if_pos hge]
  | succ j =>
    have hspos : (0 : Int) < 2 ^ j := pow_pos (by norm_num) j
    have hsbound : (2 : Int) ^ j < 2 ^ 62 := lt_trans (hk j (Nat.lt_succ_self j)) hN
    have h2succ : (2 : Int) * 2 ^ j = 2 ^ (j + 1) := by rw [pow_succ]; ring
    obtain ⟨hfil, hnil, hold⟩ := shape_facts_pair tpl ptpl ((2 : Int) ^ j) hp2 hspos
    have hchar := scale_char (rolloutGroups g0 tpl (j + 1)) tpl
      { Name := "", InstanceTemplate := ptpl, TargetSize := none } dp
      (by rw [hsh]; exact hfil) hp1 (by rw [hsh]; exact hnil) hdpk
    rw [hsh] at hchar
    rw [hold, newCanary_pos _ hspos hsbound, h2succ, htsk] at hchar
    constructor
    · intro hlt
      rw [if_neg (by omega)] at hchar
      dsimp only at hchar
      exact ⟨_, hchar⟩
    · intro hge
      rw [if_pos hge] at hchar
      refine ⟨⟨_, hchar⟩, ?_⟩
      rw [hsh, hold]
      unfold clampedCanary
      rw [newCanary_pos _ hspos hsbound, h2succ, if_pos hge]

/-! Concrete fixtures used by witnesses and counterexamples. -/

/-- A stability status that satisfies the waiter condition. -/
def readyStatus : InstanceGroupManagerStatus :=
  { IsStable := true, VersionTarget := { IsReached := true } }

/-- A stability status that fails the waiter condition. -/
def notReadyStatus : InstanceGroupManagerStatus :=
  { IsStable := false, VersionTarget := { IsReached := false } }

/-- A group with two non-canary-tagged versions of which the first runs
the target template "t": the counterexample shape for the original C6. -/
def cg6 : InstanceGroupManager :=
  { SelfLink := "g", TargetSize := 10, DistributionPolicy := some { Zones := ["z"] },
    Status := readyStatus,
    Versions := [{ Name := "v1", InstanceTemplate := "t", TargetSize := some { Fixed := 2 } },
                 { Name := "v2", InstanceTemplate := "p", TargetSize := none }] }

/-- The patch scale produces on cg6 with target template "t": old canary
size 2, doubled to 4, below the total 10, surge max(4 - 2, 1) = 2. -/
def cpatch6 : Patch :=
  { Versions := [{ Name := "", InstanceTemplate := "p", TargetSize := none },
                 { Name := "canary", InstanceTemplate := "t", TargetSize := some { Fixed := 4 } }],
    UpdatePolicy := { Type_ := "PROACTIVE", MaxSurge := some { Fixed := 2 },
                      MaxUnavailable := some { Fixed := 0 } } }

/-- A group with no versions at all, so no primary candidate. -/
def gEmpty : InstanceGroupManager :=
  { SelfLink := "g", TargetSize := 5, DistributionPolicy := some { Zones := [] },
    Status := readyStatus, Versions := [] }

/-- A group with two distinct non-canary versions, neither running the
target template "t". -/
def gAmb : InstanceGroupManager :=
  { SelfLink := "g", TargetSize := 5, DistributionPolicy := some { Zones := [] },
    Status := readyStatus,
    Versions := [{ Name := "a", InstanceTemplate := "p1", TargetSize := none },
                 { Name := "b", InstanceTemplate := "p2", TargetSize := none }] }

/-- A group whose only versions are a canary-tagged slice running a
third template and an untagged primary. -/
def gMismatch : InstanceGroupManager :=
  { SelfLink := "g", TargetSize := 5, DistributionPolicy := some { Zones := [] },
    Status := readyStatus,
    Versions := [{ Name := "canary", InstanceTemplate := "other", TargetSize := none },
                 { Name := "", InstanceTemplate := "p", TargetSize := none }] }

/-! Claim theorems. -/

/-- C5: the done-check returns true if and only if the version list of
the snapshot has length exactly one and the instance template of that
single version equals the self link of the target template; false for
every other shape. -/
theorem C5_isDone_iff (info : ClusterInfo) :
    isDone info = true ↔
      ∃ v, info.group.Versions = [v] ∧ v.InstanceTemplate = info.template.SelfLink := by
  unfold isDone
  cases hvs : info.group.Versions with
  | nil => simp
  | cons v rest =>
    cases rest with
    | nil => simp
    | cons w rest2 => simp

/-- A finished snapshot: a single version running the target template. -/
def infoDone : ClusterInfo :=
  { group := { SelfLink := "g", TargetSize := 5, DistributionPolicy := some { Zones := [] },
               Status := readyStatus,
               Versions := [{ Name := "", InstanceTemplate := "t", TargetSize := none }] },
    template := { SelfLink := "t" },
    backend := { Name := "b", Region := "", Backends := [] } }

/-- C5 witness: the done-check theorem applied to a snapshot holding the
single target-template version. -/
theorem C5_isDone_iff_witness : isDone infoDone = true :=
  (C5_isDone_iff infoDone).mpr
    ⟨{ Name := "", InstanceTemplate := "t", TargetSize := none }, rfl, rfl⟩

/-- C7 counterexample: a location with both region and zone set does not
fail with the location error; the GetMIG switch takes the region branch
and performs the regional call. -/
theorem C7_counterexample :
    GetMIG_route { Region := "r", Zone := "z" } = .ok (.regional "r") ∧
    GetMIG_route { Region := "r", Zone := "z" } ≠ .error .mustSpecifyRegionOrZone := by
  refine ⟨rfl, ?_⟩
  intro h
  exact Except.noConfusion (((rfl :
    GetMIG_route { Region := "r", Zone := "z" } = .ok (.regional "r")).symm).trans h)

/-- C7 amended: each of the three MIG operations consuming a location
fails with the location error exactly when neither region nor zone is
set; when the region is set (even together with a zone) the regional
call is dispatched. -/
theorem C7_location_validation_amended (loc : RegionOrZone) :
    (GetMIG_route loc = .error .mustSpecifyRegionOrZone ↔ loc.Region = "" ∧ loc.Zone = "") ∧
    (GetMIGInstances_route loc = .error .mustSpecifyRegionOrZone ↔
      loc.Region = "" ∧ loc.Zone = "") ∧
    (PatchMIG_route loc = .error .mustSpecifyRegionOrZone ↔ loc.Region = "" ∧ loc.Zone = "") ∧
    (loc.Region ≠ "" →
      GetMIG_route loc = .ok (.regional loc.Region) ∧
      GetMIGInstances_route loc = .ok (.regional loc.Region) ∧
      PatchMIG_route loc = .ok (.regional loc.Region)) := by
  obtain ⟨r, z⟩ := loc
  by_cases hr : r = "" <;> by_cases hz : z = "" <;>
    simp [GetMIG_route, GetMIGInstances_route, PatchMIG_route, hr, hz]

/-- C7 witness: the amended theorem applied at a location with nothing
set and at one with only the region set. -/
theorem C7_location_validation_amended_witness :
    GetMIG_route { Region := "", Zone := "" } = .error .mustSpecifyRegionOrZone ∧
    GetMIG_route { Region := "r", Zone := "" } = .ok (.regional "r") :=
  ⟨(C7_location_validation_amended { Region := "", Zone := "" }).1.mpr ⟨rfl, rfl⟩,
   ((C7_location_validation_amended { Region := "r", Zone := "" }).2.2.2
     (by decide)).1⟩

/-- C8: evaluating the backend search on a project with one backend
service whose backends contain the group link of the fleet. The claim
(and the comments in the code) say the matching service is returned; the code
instead reads the Backends field of the still-nil accumulator (the
modelled nil dereference, a runtime panic in Go), because the inner loop
iterates over backendService instead of candidateBackendService. -/
theorem C8_findBackend_nil_dereference :
    FindBackendServiceWithMIG
      [[{ Name := "bs1", Region := "", Backends := [{ Group := "mig-link" }] }]]
      "mig-link" = .error .nilBackendService := rfl

/-- C9: when scale fails with the ambiguous-primary or missing-primary
error, it has issued no patch: these returns happen before the PatchMIG
call, so the issued-patch trace is empty. -/
theorem C9_primary_errors_issue_no_patch (g : InstanceGroupManager) (tpl : String)
    (patchMIG : Patch → Except String Unit)
    (h : (scaleRun g tpl patchMIG).1 = .error .missingPrimary ∨
      ∃ a b, (scaleRun g tpl patchMIG).1 = .error (.ambiguousPrimary a b)) :
    (scaleRun g tpl patchMIG).2 = [] := by
  unfold scaleRun at h ⊢
  cases hs : scale g tpl with
  | error e => rfl
  | ok patch =>
    rw [hs] at h
    cases hp : patchMIG patch with
    | ok u => simp [hp] at h
    | error m => simp [hp] at h

/-- C9 witness: on the empty-version group scale fails with the
missing-primary error and the issued-patch trace is empty. -/
theorem C9_primary_errors_issue_no_patch_witness :
    ((scaleRun gEmpty "t" (fun _ => .ok ())).1 = .error .missingPrimary ∨
      ∃ a b, (scaleRun gEmpty "t" (fun _ => .ok ())).1 = .error (.ambiguousPrimary a b)) ∧
    (scaleRun gEmpty "t" (fun _ => .ok ())).2 = [] :=
  ⟨Or.inl rfl, C9_primary_errors_issue_no_patch gEmpty "t" _ (Or.inl rfl)⟩

/-- A group containing a canary-tagged version running a third template
together with a version that runs the target template but carries a nil
target size: the scan loop dereferences that nil pointer. -/
def gNilCanary : InstanceGroupManager :=
  { SelfLink := "g", TargetSize := 5, DistributionPolicy := some { Zones := [] },
    Status := readyStatus,
    Versions := [{ Name := "canary", InstanceTemplate := "other", TargetSize := none },
                 { Name := "", InstanceTemplate := "t", TargetSize := none },
                 { Name := "", InstanceTemplate := "p", TargetSize := none }] }

/-- C10 counterexample: gNilCanary satisfies the claim precondition - it
contains a version named canary running a template different from the
target "t", and no version running "t" has a positive fixed size (the
one version running "t" has a nil target size) - yet scale does not
treat oldCanarySize as 0 and compute newCanarySize = 1: the scan loop
reads the Fixed field of the nil target size (a runtime nil-pointer
panic in Go, the modelled nilTargetSize error) and never reaches the
size computation. -/
theorem C10_counterexample :
    scanVersions "t" gNilCanary.Versions "" 0 = .error .nilTargetSize ∧
    scale gNilCanary "t" = .error .nilTargetSize ∧
    ¬∃ p old, scanVersions "t" gNilCanary.Versions "" 0 = .ok (p, old) := by
  refine ⟨rfl, rfl, ?_⟩
  rintro ⟨p, old, h⟩
  rw [show scanVersions "t" gNilCanary.Versions "" 0 =
      Except.error ScaleError.nilTargetSize from rfl] at h
  exact Except.noConfusion h

/-- C10 amended: on a snapshot with a canary-tagged version running
another template, where every version running the target template
carries a non-nil target size and none a positive one, the scan is
unchanged by dropping the mismatched canary-tagged versions (they are
excluded from primary determination and contribute nothing), the old
canary size comes out 0 and the new canary size 1. The non-nil proviso
is forced by the counterexample: a nil target size on a target-template
version makes the code dereference a nil pointer instead. -/
theorem C10_mismatched_canary (g : InstanceGroupManager) (tpl : String)
    (_hmem : ∃ v ∈ g.Versions, v.Name = "canary" ∧ v.InstanceTemplate ≠ tpl)
    (hnopos : ∀ v ∈ g.Versions, v.InstanceTemplate = tpl →
      ∃ ts, v.TargetSize = some ts ∧ ¬ts.Fixed > 0) :
    scanVersions tpl g.Versions "" 0 =
      scanVersions tpl
        (g.Versions.filter (fun v => !(v.Name == "canary" && v.InstanceTemplate != tpl)))
        "" 0 ∧
    ∀ p old, scanVersions tpl g.Versions "" 0 = .ok (p, old) →
      old = 0 ∧ newCanary old = 1 := by
  refine ⟨scan_skip_mismatched tpl g.Versions "" 0, ?_⟩
  intro p old h
  have h0 := scan_old_const tpl g.Versions "" 0 p old hnopos h
  exact ⟨h0, by rw [h0, newCanary_zero]⟩

/-- C10 witness: the theorem applied to the mismatched-canary group,
whose scan returns primary p with size 0. -/
theorem C10_mismatched_canary_witness : (0 : Int) = 0 ∧ newCanary 0 = 1 :=
  (C10_mismatched_canary gMismatch "t"
    ⟨{ Name := "canary", InstanceTemplate := "other", TargetSize := none },
     by simp [gMismatch], by simp⟩
    (by
      intro v hv htv
      simp [gMismatch] at hv
      rcases hv with rfl | rfl <;> simp_all)).2 "p" 0 rfl

/-- With an empty primary accumulator and at least two primary
candidates in the list, the scan loop fails with the ambiguous-primary
error (provided the template of the first candidate is non-empty, since an
empty template leaves the accumulator indistinguishable from unset). -/
theorem scan_two_cand (tpl : String) :
    ∀ (vs : List InstanceGroupManagerVersion) (old : Int)
      (v1 v2 : InstanceGroupManagerVersion) (rest2 : List InstanceGroupManagerVersion),
      noNilTargetSize tpl vs →
      vs.filter (isPrimaryCandidate tpl) = v1 :: v2 :: rest2 →
      v1.InstanceTemplate ≠ "" →
      ∃ a b, scanVersions tpl vs "" old = .error (.ambiguousPrimary a b) := by
  intro vs
  induction vs with
  | nil => intro old v1 v2 rest2 _ hfil _; simp at hfil
  | cons v rest ih =>
    intro old v1 v2 rest2 hnil hfil hv1
    have hnr := noNilTargetSize_cons tpl v rest hnil
    rw [List.filter_cons] at hfil
    by_cases hv : v.InstanceTemplate = tpl
    · have hs := hnil v (List.mem_cons_self v rest) hv
      cases hts : v.TargetSize with
      | none => rw [hts] at hs; simp at hs
      | some ts =>
        have hc : isPrimaryCandidate tpl v = false := by
          simp [isPrimaryCandidate, hv]
        rw [hc] at hfil
        simp only [Bool.false_eq_true, if_false] at hfil
        by_cases hfix : ts.Fixed > 0
        · obtain ⟨a, b, hab⟩ := ih ts.Fixed v1 v2 rest2 hnr hfil hv1
          refine ⟨a, b, ?_⟩
          simp only [scanVersions, if_pos hv, hts]
          rw [if_pos hfix]
          exact hab
        · obtain ⟨a, b, hab⟩ := ih old v1 v2 rest2 hnr hfil hv1
          refine ⟨a, b, ?_⟩
          simp only [scanVersions, if_pos hv, hts]
          rw [if_neg hfix]
          exact hab
    · by_cases hn : v.Name = "canary"
      · have hc : isPrimaryCandidate tpl v = false := by
          simp [isPrimaryCandidate, hn]
        rw [hc] at hfil
        simp only [Bool.false_eq_true, if_false] at hfil
        obtain ⟨a, b, hab⟩ := ih old v1 v2 rest2 hnr hfil hv1
        refine ⟨a, b, ?_⟩
        simp only [scanVersions, if_neg hv]
        rw [if_neg (show ¬v.Name ≠ "canary" by simpa using hn)]
        exact hab
      · have hc : isPrimaryCandidate tpl v = true := by
          simp [isPrimaryCandidate, hv, hn]
        rw [hc] at hfil
        simp only [if_pos] at hfil
        have hveq : v = v1 ∧ rest.filter (isPrimaryCandidate tpl) = v2 :: rest2 := by
          have := List.cons.injEq v (rest.filter (isPrimaryCandidate tpl)) v1 (v2 :: rest2) ▸ hfil
          exact ⟨(List.cons.inj hfil).1, (List.cons.inj hfil).2⟩
        obtain ⟨hveq1, hrest⟩ := hveq
        subst hveq1
        have hne : rest.filter (isPrimaryCandidate tpl) ≠ [] := by
          rw [hrest]; simp
        obtain ⟨a, b, hab⟩ := scan_ambiguous tpl rest v.InstanceTemplate old hnr hv1 hne
        refine ⟨a, b, ?_⟩
        simp only [scanVersions, if_neg hv]
        rw [if_pos (show v.Name ≠ "canary" from hn),
          if_neg (show ¬("" : String) ≠ "" by simp)]
        exact hab

/-- C6 amended: restricted to versions whose template differs from the
target template, and assuming every version running the target template
has a non-nil target size and primary-candidate templates are non-empty:
exactly two non-canary-tagged such versions make scale fail with the
ambiguous-primary error, and zero such versions make it fail with the
missing-primary error. -/
theorem C6_primary_determination_amended :
    (∀ (g : InstanceGroupManager) (tpl : String)
        (v1 v2 : InstanceGroupManagerVersion),
      noNilTargetSize tpl g.Versions →
      g.Versions.filter (isPrimaryCandidate tpl) = [v1, v2] →
      v1.InstanceTemplate ≠ "" →
      ∃ a b, scale g tpl = .error (.ambiguousPrimary a b)) ∧
    (∀ (g : InstanceGroupManager) (tpl : String),
      noNilTargetSize tpl g.Versions →
      g.Versions.filter (isPrimaryCandidate tpl) = [] →
      scale g tpl = .error .missingPrimary) := by
  constructor
  · intro g tpl v1 v2 hnil hfil hv1
    obtain ⟨a, b, hab⟩ := scan_two_cand tpl g.Versions 0 v1 v2 [] hnil hfil hv1
    refine ⟨a, b, ?_⟩
    unfold scale
    rw [hab]
  · intro g tpl hnil hfil
    unfold scale
    rw [scan_no_cand tpl g.Versions "" 0 hnil hfil]
    simp

/-- C6 counterexample: cg6 has exactly two versions whose name is not
the canary tag, yet scale does not fail with the ambiguous-primary
error: the version running the target template is skipped by primary
determination and scale issues an ordinary two-version patch. -/
theorem C6_counterexample :
    scale cg6 "t" = .ok cpatch6 ∧
    ¬∃ a b, scale cg6 "t" = .error (.ambiguousPrimary a b) := by
  refine ⟨rfl, ?_⟩
  rintro ⟨a, b, h⟩
  rw [show scale cg6 "t" = Except.ok cpatch6 from rfl] at h
  exact Except.noConfusion h

/-- C6 witness: the amended theorem applied to a group with two primary
candidates and to the empty group. -/
theorem C6_primary_determination_amended_witness :
    (∃ a b, scale gAmb "t" = .error (.ambiguousPrimary a b)) ∧
    scale gEmpty "t" = .error .missingPrimary :=
  ⟨C6_primary_determination_amended.1 gAmb "t"
      { Name := "a", InstanceTemplate := "p1", TargetSize := none }
      { Name := "b", InstanceTemplate := "p2", TargetSize := none }
      (by
        intro v hv htv
        simp [gAmb] at hv
        rcases hv with rfl | rfl <;> simp_all)
      (by decide) (by decide),
   C6_primary_determination_amended.2 gEmpty "t"
      (fun v hv => absurd hv (List.not_mem_nil v)) rfl⟩

theorem mem_unhealthyInstances (healthStatus : List HealthStatus) (s : String) :
    s ∈ unhealthyInstances healthStatus ↔
      ∃ h ∈ healthStatus, h.HealthState = "UNHEALTHY" ∧ h.Instance = s := by
  simp only [unhealthyInstances, List.mem_map, List.mem_filter]
  constructor
  · rintro ⟨h, ⟨hm, hu⟩, hi⟩
    exact ⟨h, hm, by simpa using hu, hi⟩
  · rintro ⟨h, hm, hu, hi⟩
    exact ⟨h, ⟨hm, by simpa using hu⟩, hi⟩

theorem contains_iff_mem (l : List String) (s : String) :
    l.contains s = true ↔ s ∈ l := by
  simp [List.contains]

theorem findUnhealthyCanary_ok_iff (tpl : String) (unh : List String) :
    ∀ instances : List ManagedInstance,
      findUnhealthyCanary tpl unh instances = .ok () ↔
        ∀ i ∈ instances,
          ¬(i.Version.InstanceTemplate = tpl ∧ unh.contains i.Instance = true) := by
  intro instances
  induction instances with
  | nil => simp [findUnhealthyCanary]
  | cons i rest ih =>
    by_cases hc : i.Version.InstanceTemplate = tpl ∧ unh.contains i.Instance
    · constructor
      · intro h
        rw [show findUnhealthyCanary tpl unh (i :: rest) =
            .error (.unhealthyCanary i.Instance) by
          simp only [findUnhealthyCanary]; rw [if_pos hc]] at h
        exact Except.noConfusion h
      · intro h
        exact absurd hc (h i (List.mem_cons_self i rest))
    · have hstep : findUnhealthyCanary tpl unh (i :: rest) =
          findUnhealthyCanary tpl unh rest := by
        simp only [findUnhealthyCanary]; rw [if_neg hc]
      rw [hstep, ih]
      constructor
      · intro h j hj
        rcases List.mem_cons.mp hj with rfl | hj2
        · exact hc
        · exact h j hj2
      · intro h j hj
        exact h j (List.mem_cons_of_mem _ hj)

theorem findUnhealthyCanary_error_mem (tpl : String) (unh : List String) :
    ∀ (instances : List ManagedInstance) (name : String),
      findUnhealthyCanary tpl unh instances = .error (.unhealthyCanary name) →
      ∃ i ∈ instances, i.Instance = name ∧ i.Version.InstanceTemplate = tpl ∧
        unh.contains i.Instance = true := by
  intro instances
  induction instances with
  | nil => intro name h; simp [findUnhealthyCanary] at h
  | cons i rest ih =>
    intro name h
    by_cases hc : i.Version.InstanceTemplate = tpl ∧ unh.contains i.Instance
    · rw [show findUnhealthyCanary tpl unh (i :: rest) =
          .error (.unhealthyCanary i.Instance) by
        simp only [findUnhealthyCanary]; rw [if_pos hc]] at h
      have hni : i.Instance = name := by
        have := (Except.error.injEq _ _).mp h
        exact (HealthError.unhealthyCanary.injEq _ _).mp this
      exact ⟨i, List.mem_cons_self i rest, hni, hc.1, hc.2⟩
    · rw [show findUnhealthyCanary tpl unh (i :: rest) =
          findUnhealthyCanary tpl unh rest by
        simp only [findUnhealthyCanary]; rw [if_neg hc]] at h
      obtain ⟨j, hj, hjn, hjt, hju⟩ := ih name h
      exact ⟨j, List.mem_cons_of_mem _ hj, hjn, hjt, hju⟩

/-- For the health gate result (an Except with Unit payload), failing
with some error is the same as not succeeding. -/
theorem exists_error_iff_ne_ok (r : Except HealthError Unit) :
    (∃ e, r = .error e) ↔ ¬r = .ok () := by
  cases r with
  | ok u => cases u; simp
  | error e => simp

/-- C3: assuming both adapter calls succeed (their results are the
inputs here), the health gate fails exactly when the instance listing
contains an instance running the target template whose identifier is
marked UNHEALTHY in the backend health record, and whenever it fails the
error names such an instance; unhealthy instances on other templates
never cause failure. -/
theorem C3_health_gate (healthStatus : List HealthStatus)
    (instances : List ManagedInstance) (info : ClusterInfo) :
    ((∃ e, checkBackendServiceHealth healthStatus instances info = .error e) ↔
      ∃ i ∈ instances, i.Version.InstanceTemplate = info.template.SelfLink ∧
        ∃ h ∈ healthStatus, h.HealthState = "UNHEALTHY" ∧ h.Instance = i.Instance) ∧
    ∀ name, checkBackendServiceHealth healthStatus instances info =
        .error (.unhealthyCanary name) →
      ∃ i ∈ instances, i.Instance = name ∧
        i.Version.InstanceTemplate = info.template.SelfLink ∧
        ∃ h ∈ healthStatus, h.HealthState = "UNHEALTHY" ∧ h.Instance = i.Instance := by
  constructor
  · rw [exists_error_iff_ne_ok]
    unfold checkBackendServiceHealth
    rw [findUnhealthyCanary_ok_iff]
    constructor
    · intro h
      rcases not_forall.mp h with ⟨i, hi⟩
      rcases Classical.not_imp.mp hi with ⟨him, hcond⟩
      rcases not_not.mp (by simpa using hcond) with ⟨ht, hu⟩
      refine ⟨i, him, ht, ?_⟩
      exact (mem_unhealthyInstances healthStatus i.Instance).mp hu
    · rintro ⟨i, him, ht, hu⟩
      intro hall
      refine hall i him ⟨ht, ?_⟩
      exact (contains_iff_mem _ _).mpr
        ((mem_unhealthyInstances healthStatus i.Instance).mpr hu)
  · intro name h
    obtain ⟨i, him, hin, hit, hiu⟩ :=
      findUnhealthyCanary_error_mem info.template.SelfLink
        (unhealthyInstances healthStatus) instances name h
    exact ⟨i, him, hin, hit,
      (mem_unhealthyInstances healthStatus i.Instance).mp
        ((contains_iff_mem _ _).mp hiu)⟩

/-- C3 witness: the gate applied to a listing with an unhealthy canary
instance vm-a and a healthy-template instance vm-b; the iff produces the
failure, and the same listing with only vm-b unhealthy passes. -/
theorem C3_health_gate_witness :
    (∃ e, checkBackendServiceHealth
      [{ HealthState := "UNHEALTHY", Instance := "vm-a" }]
      [{ Instance := "vm-a", Version := { InstanceTemplate := "t" } },
       { Instance := "vm-b", Version := { InstanceTemplate := "p" } }]
      { group := gEmpty, template := { SelfLink := "t" },
        backend := { Name := "b", Region := "", Backends := [] } } = .error e) ∧
    ¬(∃ e, checkBackendServiceHealth
      [{ HealthState := "UNHEALTHY", Instance := "vm-b" }]
      [{ Instance := "vm-a", Version := { InstanceTemplate := "t" } },
       { Instance := "vm-b", Version := { InstanceTemplate := "p" } }]
      { group := gEmpty, template := { SelfLink := "t" },
        backend := { Name := "b", Region := "", Backends := [] } } = .error e) := by
  constructor
  · exact (C3_health_gate _ _ _).1.mpr
      ⟨{ Instance := "vm-a", Version := { InstanceTemplate := "t" } },
       by simp, rfl,
       { HealthState := "UNHEALTHY", Instance := "vm-a" }, by simp, rfl, rfl⟩
  · intro hex
    have := (C3_health_gate _ _ _).1.mp hex
    revert this
    decide

theorem waitAux_success (fetch : Nat → InstanceGroupManager) (info : ClusterInfo) :
    ∀ (k fuel t : Nat), k < fuel →
      (∀ i, i < k → stableReady (fetch (t + i)) = false) →
      stableReady (fetch (t + k)) = true →
      waitAux fetch info fuel t =
        (.ok { group := fetch (t + k), template := info.template, backend := info.backend },
         t + k + 1, t + k) := by
  intro k
  induction k with
  | zero =>
    intro fuel t hk _ hgood
    cases fuel with
    | zero => omega
    | succ f =>
      rw [Nat.add_zero] at hgood
      simp only [waitAux]
      rw [if_pos hgood]
      simp
  | succ k ih =>
    intro fuel t hk hbad hgood
    cases fuel with
    | zero => omega
    | succ f =>
      have hb0 : stableReady (fetch t) = false := by
        have := hbad 0 (Nat.succ_pos k)
        simpa using this
      simp only [waitAux]
      rw [if_neg (by simp [hb0])]
      have hbad2 : ∀ i, i < k → stableReady (fetch (t + 1 + i)) = false := by
        intro i hi
        have := hbad (i + 1) (Nat.succ_lt_succ hi)
        rwa [show t + (i + 1) = t + 1 + i by omega] at this
      have hgood2 : stableReady (fetch (t + 1 + k)) = true := by
        rwa [show t + (k + 1) = t + 1 + k by omega] at hgood
      have := ih f (t + 1) (Nat.lt_of_succ_lt_succ hk) hbad2 hgood2
      rw [this]
      have e1 : t + 1 + k = t + (k + 1) := by omega
      rw [e1]

theorem waitAux_timeout (fetch : Nat → InstanceGroupManager) (info : ClusterInfo) :
    ∀ (fuel t : Nat),
      (∀ i, i < fuel → stableReady (fetch (t + i)) = false) →
      waitAux fetch info fuel t = (.error (.stabilityTimeout maxTicks), t + fuel, t + fuel) := by
  intro fuel
  induction fuel with
  | zero => intro t _; simp [waitAux]
  | succ f ih =>
    intro t hbad
    have hb0 : stableReady (fetch t) = false := by
      have := hbad 0 (Nat.succ_pos f)
      simpa using this
    simp only [waitAux]
    rw [if_neg (by simp [hb0])]
    have hbad2 : ∀ i, i < f → stableReady (fetch (t + 1 + i)) = false := by
      intro i hi
      have := hbad (i + 1) (Nat.succ_lt_succ hi)
      rwa [show t + (i + 1) = t + 1 + i by omega] at this
    rw [ih (t + 1) hbad2]
    have e1 : t + 1 + f = t + (f + 1) := by omega
    rw [e1]

/-- C4: if the fetches report not-stable for the first k < 60 calls and
the k-th call (zero-based) is stable with the version target reached,
the waiter returns the refreshed snapshot after exactly k+1 fetches and
k sleeps; if all 60 fetches report not-stable it fails with the
stability-timeout error, having performed exactly 60 fetches (no 61st). -/
theorem C4_stability_waiter (fetch : Nat → InstanceGroupManager) (info : ClusterInfo) :
    (∀ k, k < 60 →
      (∀ i, i < k → stableReady (fetch i) = false) →
      stableReady (fetch k) = true →
      waitUntilStable fetch info =
        (.ok { group := fetch k, template := info.template, backend := info.backend },
         k + 1, k)) ∧
    ((∀ i, i < 60 → stableReady (fetch i) = false) →
      waitUntilStable fetch info = (.error (.stabilityTimeout maxTicks), 60, 60)) := by
  constructor
  · intro k hk hbad hgood
    have h := waitAux_success fetch info k 60 0 hk
      (by intro i hi; simpa using hbad i hi) (by simpa using hgood)
    simpa [waitUntilStable, maxTicks] using h
  · intro hbad
    have h := waitAux_timeout fetch info 60 0 (by intro i hi; simpa using hbad i hi)
    simpa [waitUntilStable, maxTicks] using h

/-- A fetch sequence that is not stable for the first two calls and
stable with target reached from the third on. -/
def fetchW : Nat → InstanceGroupManager := fun i =>
  if i < 2 then { gEmpty with Status := notReadyStatus } else gEmpty

/-- A cluster snapshot fixture for the waiter witness. -/
def infoW : ClusterInfo :=
  { group := { gEmpty with Status := notReadyStatus },
    template := { SelfLink := "t" },
    backend := { Name := "b", Region := "", Backends := [] } }

/-- C4 witness: the waiter theorem applied to fetchW, succeeding on the
third call with three fetches and two sleeps. -/
theorem C4_stability_waiter_witness :
    waitUntilStable fetchW infoW =
      (.ok { group := fetchW 2, template := infoW.template, backend := infoW.backend },
       2 + 1, 2) :=
  (C4_stability_waiter fetchW infoW).1 2 (by decide)
    (by
      intro i hi
      interval_cases i <;> rfl)
    (by rfl)

/-- C2: every patch scale issues has maxSurge equal to the max of
newCanarySize - oldCanarySize and the zone count of the distribution
policy, and maxUnavailable 0. Sizes are assumed in the int64-safe range
(below 2^62), as they are for any real fleet. -/
theorem C2_surge_policy (g : InstanceGroupManager) (tpl : String)
    (hrange : ∀ v ∈ g.Versions, ∀ ts, v.TargetSize = some ts → ts.Fixed < 2 ^ 62)
    (hts0 : 0 ≤ g.TargetSize) (hts1 : g.TargetSize < 2 ^ 62) :
    ∀ patch, scale g tpl = .ok patch →
      ∃ primaryTemplate old dp,
        scanVersions tpl g.Versions "" 0 = .ok (primaryTemplate, old) ∧
        g.DistributionPolicy = some dp ∧
        patch.UpdatePolicy.MaxSurge =
          some { Fixed := max (clampedCanary old g.TargetSize - old) (dp.Zones.length : Int) } ∧
        patch.UpdatePolicy.MaxUnavailable = some { Fixed := 0 } := by
  intro patch h
  unfold scale at h
  cases hscan : scanVersions tpl g.Versions "" 0 with
  | error e => rw [hscan] at h; exact Except.noConfusion h
  | ok pr =>
    obtain ⟨pt, old⟩ := pr
    rw [hscan] at h
    dsimp only at h
    by_cases hpt : pt = ""
    · rw [if_pos hpt] at h; exact Except.noConfusion h
    · rw [if_neg hpt] at h
      have hold : 0 ≤ old ∧ old < 2 ^ 62 := by
        rcases scan_old_mem tpl g.Versions "" 0 pt old hscan with h0 | ⟨v, hv, ts, hts, hpos, heq⟩
        · constructor <;> omega
        · have := hrange v hv ts hts
          constructor <;> omega
      have hnb : 0 ≤ newCanary old ∧ newCanary old < 2 ^ 63 := by
        by_cases h0 : old = 0
        · rw [h0, newCanary_zero]; norm_num
        · rw [newCanary_pos old (by omega) hold.2]
          constructor <;> omega
      cases hdp : g.DistributionPolicy with
      | none =>
        by_cases hge : newCanary old ≥ g.TargetSize
        · rw [if_pos hge] at h
          unfold finishScale at h
          rw [hdp] at h
          exact Except.noConfusion h
        · rw [if_neg hge] at h
          unfold finishScale at h
          rw [hdp] at h
          exact Except.noConfusion h
      | some dp =>
        by_cases hge : newCanary old ≥ g.TargetSize
        · rw [if_pos hge, finishScale_char g dp old g.TargetSize _ hdp] at h
          have hp2 := (Except.ok.injEq _ _).mp h
          subst hp2
          have hcl : clampedCanary old g.TargetSize = g.TargetSize := by
            unfold clampedCanary; rw [if_pos hge]
          have hwrap : int64wrap (g.TargetSize - old) = g.TargetSize - old :=
            int64wrap_eq_self _ (by omega) (by omega)
          exact ⟨pt, old, dp, rfl, rfl, by rw [hcl]; simp [hwrap], rfl⟩
        · rw [if_neg hge, finishScale_char g dp old (newCanary old) _ hdp] at h
          have hp2 := (Except.ok.injEq _ _).mp h
          subst hp2
          have hcl : clampedCanary old g.TargetSize = newCanary old := by
            unfold clampedCanary; rw [if_neg hge]
          have hwrap : int64wrap (newCanary old - old) = newCanary old - old :=
            int64wrap_eq_self _ (by omega) (by omega)
          exact ⟨pt, old, dp, rfl, rfl, by rw [hcl]; simp [hwrap], rfl⟩

/-- C2 witness: the surge theorem applied to the two-version group cg6,
whose patch cpatch6 carries surge max(4 - 2, 1) = 2 and unavailability
0. -/
theorem C2_surge_policy_witness :
    ∃ primaryTemplate old dp,
      scanVersions "t" cg6.Versions "" 0 = .ok (primaryTemplate, old) ∧
      cg6.DistributionPolicy = some dp ∧
      cpatch6.UpdatePolicy.MaxSurge =
        some { Fixed := max (clampedCanary old cg6.TargetSize - old) (dp.Zones.length : Int) } ∧
      cpatch6.UpdatePolicy.MaxUnavailable = some { Fixed := 0 } :=
  C2_surge_policy cg6 "t"
    (by
      intro v hv ts hts
      simp [cg6] at hv
      rcases hv with rfl | rfl
      · simp at hts
        subst hts
        norm_num
      · simp at hts)
    (by norm_num [cg6]) (by norm_num [cg6])
    cpatch6 rfl

/-- C1: scale is a pure function of the snapshot with the claimed
postcondition. First conjunct, per invocation: on a snapshot with
exactly one primary candidate (and a well-formed canary slice in the
int64-safe range), the new canary size is 1 when the old size is 0 (or
no version runs the target template) and twice the old size otherwise;
when it reaches the total target size the patch collapses to the single
target-template version with the size clamped to the total, otherwise
the patch is exactly the unchanged primary (no explicit size) plus the
canary at the new size. Second conjunct, iterated: starting with no
prior canary and target size N, invocation k+1 issues a canary of size
2 ^ k while 2 ^ k < N, and the first invocation with 2 ^ k >= N issues
the single-version collapse clamped to N. -/
theorem C1_scale_postcondition :
    (∀ (g : InstanceGroupManager) (tpl : String) (p : InstanceGroupManagerVersion)
        (dp : DistributionPolicy) (oldSz : Int),
      g.Versions.filter (isPrimaryCandidate tpl) = [p] →
      p.InstanceTemplate ≠ "" →
      g.DistributionPolicy = some dp →
      ((g.Versions.filter (runsTemplate tpl) = [] ∧ oldSz = 0) ∨
        (∃ c, g.Versions.filter (runsTemplate tpl) = [c] ∧
          c.TargetSize = some { Fixed := oldSz } ∧ 0 ≤ oldSz ∧ oldSz < 2 ^ 62)) →
      ∃ patch, scale g tpl = .ok patch ∧
        oldFold tpl g.Versions 0 = oldSz ∧
        newCanary oldSz = (if oldSz = 0 then 1 else 2 * oldSz) ∧
        (newCanary oldSz ≥ g.TargetSize →
          patch.Versions = [{ Name := "", InstanceTemplate := tpl, TargetSize := none }] ∧
          clampedCanary oldSz g.TargetSize = g.TargetSize) ∧
        (¬newCanary oldSz ≥ g.TargetSize →
          patch.Versions =
            [{ Name := "", InstanceTemplate := p.InstanceTemplate, TargetSize := none },
             { Name := "canary", InstanceTemplate := tpl,
               TargetSize := some { Fixed := newCanary oldSz } }])) ∧
    (∀ (tpl ptpl : String) (N : Int) (dp : DistributionPolicy)
        (g0 : InstanceGroupManager),
      ptpl ≠ "" → ptpl ≠ tpl → N < 2 ^ 62 →
      g0.Versions = [{ Name := "", InstanceTemplate := ptpl, TargetSize := none }] →
      g0.TargetSize = N → g0.DistributionPolicy = some dp →
      (∀ k, (2 : Int) ^ k < N →
        ∃ up, scale (rolloutGroups g0 tpl k) tpl =
          .ok { Versions :=
                  [{ Name := "", InstanceTemplate := ptpl, TargetSize := none },
                   { Name := "canary", InstanceTemplate := tpl,
                     TargetSize := some { Fixed := (2 : Int) ^ k } }],
                UpdatePolicy := up }) ∧
      (∀ K, (∀ j, j < K → (2 : Int) ^ j < N) → (2 : Int) ^ K ≥ N →
        (∃ up, scale (rolloutGroups g0 tpl K) tpl =
          .ok { Versions := [{ Name := "", InstanceTemplate := tpl, TargetSize := none }],
                UpdatePolicy := up }) ∧
        clampedCanary (oldFold tpl (rolloutGroups g0 tpl K).Versions 0) N = N)) := by
  constructor
  · intro g tpl p dp oldSz hf hp hdp hold
    have hnil : noNilTargetSize tpl g.Versions := by
      intro v hv htv
      have hvmem : v ∈ g.Versions.filter (runsTemplate tpl) :=
        List.mem_filter.mpr ⟨hv, by simp [runsTemplate, htv]⟩
      rcases hold with ⟨hfe, _⟩ | ⟨c, hfc, hcs, _⟩
      · rw [hfe] at hvmem; simp at hvmem
      · rw [hfc] at hvmem
        simp at hvmem
        subst hvmem
        rw [hcs]
        simp
    have holdv : oldFold tpl g.Versions 0 = oldSz := by
      rcases hold with ⟨hfe, h0⟩ | ⟨c, hfc, hcs, h0, _⟩
      · rw [oldFold_no_target tpl g.Versions 0 hfe, h0]
      · rw [oldFold_single_target tpl c { Fixed := oldSz } g.Versions 0 hfc hcs]
        dsimp only
        split
        · rfl
        · omega
    have hbound : 0 ≤ oldSz ∧ oldSz < 2 ^ 62 := by
      rcases hold with ⟨_, h0⟩ | ⟨c, _, _, h0, h1⟩
      · constructor <;> omega
      · exact ⟨h0, h1⟩
    have hneweq : newCanary oldSz = (if oldSz = 0 then 1 else 2 * oldSz) := by
      by_cases h0 : oldSz = 0
      · rw [h0, newCanary_zero]; simp
      · rw [newCanary_pos oldSz (by omega) hbound.2, if_neg h0]
    have hchar := scale_char g tpl p dp hf hp hnil hdp
    rw [holdv] at hchar
    by_cases hge : newCanary oldSz ≥ g.TargetSize
    · rw [if_pos hge] at hchar
      refine ⟨_, hchar, holdv, hneweq, ?_, ?_⟩
      · intro _
        refine ⟨rfl, ?_⟩
        unfold clampedCanary
        rw [if_pos hge]
      · intro hn
        exact absurd hge hn
    · rw [if_neg hge] at hchar
      refine ⟨_, hchar, holdv, hneweq, ?_, ?_⟩
      · intro hg
        exact absurd hg hge
      · intro _
        rfl
  · intro tpl ptpl N dp g0 hp1 hp2 hN hv0 hts hdp
    constructor
    · intro k hlt
      have hk : ∀ j, j < k → (2 : Int) ^ j < N := by
        intro j hj
        calc (2 : Int) ^ j ≤ 2 ^ k :=
              pow_le_pow_right₀ (by norm_num) (Nat.le_of_lt hj)
          _ < N := hlt
      exact (rollout_scale tpl ptpl N dp g0 hp1 hp2 hN hv0 hts hdp k hk).1 hlt
    · intro K hK hge
      exact (rollout_scale tpl ptpl N dp g0 hp1 hp2 hN hv0 hts hdp K hK).2 hge

/-- C1 witness: the per-invocation conjunct applied to cg6, whose canary
slice of size 2 doubles to 4, below the total 10, giving the two-version
patch. -/
theorem C1_scale_postcondition_witness :
    ∃ patch, scale cg6 "t" = .ok patch ∧
      oldFold "t" cg6.Versions 0 = 2 ∧
      newCanary 2 = (if (2 : Int) = 0 then 1 else 2 * 2) ∧
      (newCanary 2 ≥ cg6.TargetSize →
        patch.Versions = [{ Name := "", InstanceTemplate := "t", TargetSize := none }] ∧
        clampedCanary 2 cg6.TargetSize = cg6.TargetSize) ∧
      (¬newCanary 2 ≥ cg6.TargetSize →
        patch.Versions =
          [{ Name := "", InstanceTemplate := "p", TargetSize := none },
           { Name := "canary", InstanceTemplate := "t",
             TargetSize := some { Fixed := newCanary 2 } }]) :=
  C1_scale_postcondition.1 cg6 "t"
    { Name := "v2", InstanceTemplate := "p", TargetSize := none }
    { Zones := ["z"] } 2
    (by decide) (by decide) rfl
    (Or.inr ⟨{ Name := "v1", InstanceTemplate := "t", TargetSize := some { Fixed := 2 } },
      by decide, rfl, by norm_num, by norm_num⟩)

end Bulldozer
